import Mathlib

/-!
Verification development for the Fast-Search-X-Ways pipeline
(src/Search.cpp): a DirectStorage/D3D12 file-ingestion pipeline feeding a
pattern-match stage, exposed through the `XWF_Run` / `XWF_Exit` entry points.

The embedding models the external collaborators at their interface
boundary, exactly as the source uses them:

* the file system is a map from path to file bytes (`FileSystem`);
  `IDStorageFactory::OpenFile` fails exactly when the path is absent;
* `IDStorageQueue` reads the whole file into the Default-heap buffer and
  `WaitForIdle` blocks until that read is complete, so the Default buffer
  holds the true file bytes afterwards (src/Search.cpp lines 98-102);
* `ID3D12Device::CreateCommittedResource` with `Width = 0` is an invalid
  buffer size and fails (the D3D12 allocator contract; the source passes
  `fileSize` straight through as `Width`, lines 77-96);
* `ExecuteCommandLists` is asynchronous: the submitted device-to-device
  copy completes at some unspecified later time.  The source inserts no
  fence wait between submission and `Map` (line 126 is
  `commandQueue->Signal(nullptr, 0)` on a null fence, and the command
  list is never even closed), so whether the copy has executed by the
  time the readback buffer is mapped is scheduler-dependent.  The model
  exposes this nondeterminism as an explicit `copyDone : Bool` scheduler
  parameter: `copyDone = true` is the schedule in which the copy finished
  before `Map`, `copyDone = false` the one in which it did not, in which
  case `Map` sees the readback buffer's initial (zero-filled) contents;
* the cudf pattern-match stage is a black box
  `contains : bytes -> pattern -> Bool`.

Machine integers: all sizes are `Nat`; no arithmetic in the source can
overflow a `uint64_t` for representable files, so no modular reduction is
needed.
-/

/-- A byte is modelled as a `Nat` (the source uses `uint8_t`; no byte
arithmetic occurs, only copying, so no `% 256` is needed). -/
abbrev Byte := Nat

/-- The file system seen through `IDStorageFactory::OpenFile` /
`GetFileInformation`: a path either names a file with known contents or
does not exist. -/
def FileSystem := String → Option (List Byte)

/-- Error kinds of the pipeline.  The first five are thrown (as
`std::runtime_error`) by the source; `notInitializedError` is the error
kind the spec prescribes for a `scan`-before-`start` call and is never
produced by the code; `initializationError` tags
`initialize_direct_storage` failures. -/
inductive ErrKind where
  | fileOpenError
  | metadataError
  | allocationError
  | executionError
  | mapError
  | notInitializedError
  | initializationError
deriving DecidableEq, Repr

/-- Heap kind passed to `CreateCommittedResource`
(`D3D12_HEAP_TYPE_DEFAULT` / `D3D12_HEAP_TYPE_READBACK`). -/
inductive HeapKind where
  | default
  | readback
deriving DecidableEq, Repr

/-- Observable device/storage events of one `read_file_direct_storage`
call, in program order.  `fenceWait` is the fence signal-and-wait
operation the spec requires between copy submission and `Map`; the
constructor exists so that its absence from every trace is statable. -/
inductive Event where
  | openFile (path : String)
  | getFileSize (size : Nat)
  | allocBuffer (heap : HeapKind) (size : Nat)
  | enqueueRead (size : Nat)
  | submitStorage
  | waitForIdle
  | resourceBarrier
  | copyResource
  | executeCommandLists
  | signalNullFence
  | fenceWait
  | mapBuffer
  | memcpyBytes (size : Nat)
  | unmapBuffer
deriving DecidableEq, Repr

/-- Shallow embedding of `read_file_direct_storage` (src/Search.cpp
lines 64-139).  Returns the thrown error or the returned
`std::vector<uint8_t>` contents, paired with the trace of device/storage
operations performed.

Step by step against the source:
* lines 65-69: `OpenFile` — fails iff the path is absent;
* lines 71-75: `GetFileInformation` — yields the file size;
* lines 77-96: `fileContent(fileSize)` and the Default-heap
  `CreateCommittedResource` with `Width = fileSize` — fails when
  `fileSize = 0` (invalid buffer size), throwing the
  "Failed to create GPU buffer" error;
* lines 98-102: `EnqueueReadFile` / `Submit` / `WaitForIdle` — after the
  idle wait the Default buffer holds the file bytes;
* lines 105-112: Readback-heap `CreateCommittedResource`, same size;
* lines 114-121: resource barrier + `CopyResource` recorded;
* lines 124-126: `ExecuteCommandLists`, then `Signal(nullptr, 0)` — no
  fence wait, so at `Map` time the copy has executed only on schedules
  with `copyDone = true`;
* lines 129-136: `Map`, `memcpy` of `fileSize` bytes, `Unmap`. -/
def read_file_direct_storage (fs : FileSystem) (copyDone : Bool)
    (file_path : String) : Except ErrKind (List Byte) × List Event :=
  match fs file_path with
  | none =>
      (Except.error ErrKind.fileOpenError, [Event.openFile file_path])
  | some bytes =>
      let fileSize := bytes.length
      if fileSize = 0 then
        (Except.error ErrKind.allocationError,
         [Event.openFile file_path, Event.getFileSize fileSize,
          Event.allocBuffer HeapKind.default fileSize])
      else
        let gpuBuffer := bytes
        let readbackInit : List Byte := List.replicate fileSize 0
        let mappedData := if copyDone then gpuBuffer else readbackInit
        let fileContent := mappedData.take fileSize
        (Except.ok fileContent,
         [Event.openFile file_path, Event.getFileSize fileSize,
          Event.allocBuffer HeapKind.default fileSize,
          Event.enqueueRead fileSize, Event.submitStorage,
          Event.waitForIdle,
          Event.allocBuffer HeapKind.readback fileSize,
          Event.resourceBarrier, Event.copyResource,
          Event.executeCommandLists, Event.signalNullFence,
          Event.mapBuffer, Event.memcpyBytes fileSize,
          Event.unmapBuffer])

/-- One File Result of the batch loop: the per-path line printed to
`std::cout` (success, with the `contains` outcome) or to `std::cerr`
(the caught per-file exception), as the spec's
`{file_path, matched, error}` record. -/
structure FileResult where
  path : String
  matched : Bool
  error : Option ErrKind
deriving DecidableEq, Repr

/-- One iteration of the batch loop of `search_files_with_regex`
(src/Search.cpp lines 144-157): ingest the file, hand the bytes to the
black-box cudf `contains` stage, and convert any thrown error into this
file's error record (the `catch (const std::exception&)` arm). -/
def scan_one (contains : List Byte → String → Bool) (fs : FileSystem)
    (copyDone : Bool) (regex_pattern : String) (file_path : String) :
    FileResult :=
  match (read_file_direct_storage fs copyDone file_path).1 with
  | Except.ok fileContent =>
      { path := file_path,
        matched := contains fileContent regex_pattern,
        error := none }
  | Except.error e =>
      { path := file_path, matched := false, error := some e }

/-- Shallow embedding of `search_files_with_regex` (src/Search.cpp
lines 141-158): the for loop over `file_paths` with per-file try/catch.
Each iteration is independent of the others in the model (the only
state the loop shares is the device context, which a failed `OpenFile`
never touches), so the loop is a `List.map`. -/
def search_files_with_regex (contains : List Byte → String → Bool)
    (fs : FileSystem) (copyDone : Bool) (file_paths : List String)
    (regex_pattern : String) : List FileResult :=
  file_paths.map (scan_one contains fs copyDone regex_pattern)

/-- The six global `ComPtr`s of src/Search.cpp lines 17-22; `true` means
the handle is non-null (a live COM reference), `false` means null. -/
structure Globals where
  storageFactory : Bool
  storageQueue : Bool
  device : Bool
  commandQueue : Bool
  commandAllocator : Bool
  commandList : Bool
deriving DecidableEq, Repr

/-- All six globals null: the state before any initialization and after
`XWF_Exit`. -/
def emptyGlobals : Globals :=
  { storageFactory := false, storageQueue := false, device := false,
    commandQueue := false, commandAllocator := false,
    commandList := false }

/-- Outcome of each driver/device creation call inside
`initialize_direct_storage`: whether the corresponding HRESULT is a
success.  This is the external environment (driver, OS, hardware). -/
structure InitEnv where
  factoryOk : Bool
  deviceOk : Bool
  queueOk : Bool
  allocatorOk : Bool
  listOk : Bool
  dsQueueOk : Bool
deriving DecidableEq, Repr

/-- Shallow embedding of `initialize_direct_storage` (src/Search.cpp
lines 24-62): the six creation calls in source order, each writing its
global (a failing call leaves its out-parameter null — `ComPtr`'s
`operator&` releases and nulls the target first) and throwing
`std::runtime_error` on failure, which aborts the remaining steps.  No
step resets the globals written by earlier steps. -/
def initialize_direct_storage (env : InitEnv) (g : Globals) :
    Globals × Option ErrKind :=
  let g := { g with storageFactory := env.factoryOk }
  if env.factoryOk = false then (g, some ErrKind.initializationError) else
  let g := { g with device := env.deviceOk }
  if env.deviceOk = false then (g, some ErrKind.initializationError) else
  let g := { g with commandQueue := env.queueOk }
  if env.queueOk = false then (g, some ErrKind.initializationError) else
  let g := { g with commandAllocator := env.allocatorOk }
  if env.allocatorOk = false then (g, some ErrKind.initializationError) else
  let g := { g with commandList := env.listOk }
  if env.listOk = false then (g, some ErrKind.initializationError) else
  let g := { g with storageQueue := env.dsQueueOk }
  if env.dsQueueOk = false then (g, some ErrKind.initializationError) else
  (g, none)

/-- Names of the six global handles, for stating the release order of
`XWF_Exit`. -/
inductive HandleId where
  | storageFactory
  | storageQueue
  | device
  | commandQueue
  | commandAllocator
  | commandList
deriving DecidableEq, Repr

/-- `ComPtr::Reset()` on one named global: releases the reference and
nulls the pointer; a no-op when the handle is already null. -/
def resetHandle (g : Globals) : HandleId → Globals
  | HandleId.storageFactory => { g with storageFactory := false }
  | HandleId.storageQueue => { g with storageQueue := false }
  | HandleId.device => { g with device := false }
  | HandleId.commandQueue => { g with commandQueue := false }
  | HandleId.commandAllocator => { g with commandAllocator := false }
  | HandleId.commandList => { g with commandList := false }

/-- The exact `Reset()` order of `XWF_Exit` (src/Search.cpp
lines 182-187): storageQueue, storageFactory, commandList,
commandAllocator, commandQueue, device. -/
def xwfExitReleaseOrder : List HandleId :=
  [HandleId.storageQueue, HandleId.storageFactory, HandleId.commandList,
   HandleId.commandAllocator, HandleId.commandQueue, HandleId.device]

/-- Shallow embedding of `XWF_Exit` (src/Search.cpp lines 180-190):
resets every global in `xwfExitReleaseOrder` and returns 0. -/
def XWF_Exit (g : Globals) : Globals × Int :=
  (xwfExitReleaseOrder.foldl resetHandle g, 0)

/-- Shallow embedding of `XWF_Run` (src/Search.cpp lines 160-178):
initialize, then scan the hard-coded path list with the hard-coded
pattern; the surrounding try/catch returns 1 exactly when an exception
escapes (only `initialize_direct_storage` throws out of the try block —
`search_files_with_regex` catches every per-file exception itself), and
0 otherwise. -/
def XWF_Run (env : InitEnv) (contains : List Byte → String → Bool)
    (fs : FileSystem) (copyDone : Bool) (g : Globals) :
    Int × Globals × List FileResult :=
  match initialize_direct_storage env g with
  | (g1, some _) => (1, g1, [])
  | (g1, none) =>
      let regex_pattern := "your-regex-pattern"
      let file_paths := ["file1.txt", "file2.txt", "file3.txt"]
      (0, g1,
        search_files_with_regex contains fs copyDone file_paths
          regex_pattern)

/-- Outcome of entering the scan path (`search_files_with_regex`) as a
whole, including the case in which it runs before any initialization. -/
inductive ScanOutcome where
  | results (rs : List FileResult)
  | nullDeref
  | notInitialized
deriving DecidableEq, Repr

/-- The scan entry as reachable before/after initialization.  The body
performs no initialization check: with a null `storageFactory`, the
first loop iteration executes `storageFactory->OpenFile(...)` through a
null `ComPtr`, a null-pointer dereference — an access violation, not a
C++ exception, so the per-file `catch (const std::exception&)` does not
catch it (`ScanOutcome.nullDeref`).  With an empty path list the loop
body never runs.  `ScanOutcome.notInitialized` (the spec's
`NotInitializedError`) is never produced. -/
def scan_entry (factoryInitialized : Bool)
    (contains : List Byte → String → Bool) (fs : FileSystem)
    (copyDone : Bool) (file_paths : List String)
    (regex_pattern : String) : ScanOutcome :=
  if file_paths.isEmpty then ScanOutcome.results []
  else if factoryInitialized then
    ScanOutcome.results
      (search_files_with_regex contains fs copyDone file_paths
        regex_pattern)
  else ScanOutcome.nullDeref

/-- A file system with one three-byte file, used as concrete input. -/
def fsThreeBytes : FileSystem :=
  fun p => if p = "a.txt" then some [1, 2, 3] else none

/-- A file system with one zero-length file, used as concrete input. -/
def fsEmptyFile : FileSystem :=
  fun p => if p = "empty.txt" then some [] else none

/-- A file system in which every path is missing, used as concrete
input. -/
def fsAllMissing : FileSystem := fun _ => none

/-- A file system holding the three hard-coded paths of `XWF_Run`, the
first containing the bytes of "foo". -/
def fsRunFiles : FileSystem :=
  fun p =>
    if p = "file1.txt" then some [102, 111, 111]
    else if p = "file2.txt" then some [98, 97, 122]
    else if p = "file3.txt" then some [120]
    else none

/-- A concrete black-box match stage: does the byte sequence have at
least one byte equal to 102 (the letter f)?  Any function would do; the
claims treat the match stage as opaque. -/
def containsF : List Byte → String → Bool :=
  fun bytes _ => bytes.any (fun b => b = 102)

/-- The environment in which every creation call succeeds. -/
def envAllOk : InitEnv :=
  { factoryOk := true, deviceOk := true, queueOk := true,
    allocatorOk := true, listOk := true, dsQueueOk := true }

/-- The environment in which `CreateCommandQueue` fails and everything
before it succeeds. -/
def envQueueFails : InitEnv :=
  { factoryOk := true, deviceOk := true, queueOk := false,
    allocatorOk := true, listOk := true, dsQueueOk := true }

/-- The environment in which `D3D12CreateDevice` fails. -/
def envDeviceFails : InitEnv :=
  { factoryOk := true, deviceOk := false, queueOk := true,
    allocatorOk := true, listOk := true, dsQueueOk := true }

theorem scan_one_path (contains : List Byte → String → Bool)
    (fs : FileSystem) (copyDone : Bool) (regex_pattern : String)
    (file_path : String) :
    (scan_one contains fs copyDone regex_pattern file_path).path =
      file_path := by
  unfold scan_one
  cases (read_file_direct_storage fs copyDone file_path).1 <;> rfl

/-- C3: for every input list of file paths and pattern, the batch scan
produces exactly one File Result per path, in the same order as the
input, and never aborts early: the result list's length equals the
input's length even when some or all individual files fail (every
per-file exception is caught inside the loop). -/
theorem c3_scan_full_ordered_results
    (contains : List Byte → String → Bool) (fs : FileSystem)
    (copyDone : Bool) (file_paths : List String)
    (regex_pattern : String) :
    (search_files_with_regex contains fs copyDone file_paths
        regex_pattern).length = file_paths.length ∧
    List.map FileResult.path
        (search_files_with_regex contains fs copyDone file_paths
          regex_pattern) = file_paths := by
  constructor
  · simp [search_files_with_regex]
  · simp [search_files_with_regex, List.map_map, Function.comp_def,
      scan_one_path]

/-- C4: a missing path yields a FileOpenError result with
`matched = false`, and the results of all other paths are exactly those
of the list with the missing path removed (per-file failure isolation);
the scan itself is a total function, so no fault escapes to the
caller. -/
theorem c4_missing_path_isolated
    (contains : List Byte → String → Bool) (fs : FileSystem)
    (copyDone : Bool) (regex_pattern : String)
    (l1 l2 : List String) (p : String) (h : fs p = none) :
    search_files_with_regex contains fs copyDone (l1 ++ p :: l2)
        regex_pattern =
      search_files_with_regex contains fs copyDone l1 regex_pattern ++
        ({ path := p, matched := false,
           error := some ErrKind.fileOpenError } ::
          search_files_with_regex contains fs copyDone l2
            regex_pattern) := by
  simp [search_files_with_regex, scan_one, read_file_direct_storage, h]

/-- Witness for C4 at a concrete input: "missing.txt" is absent from the
file system, and the scan of ["a.txt", "missing.txt", "b.txt"] is the
scan of ["a.txt"], the FileOpenError result, then the scan of
["b.txt"]. -/
theorem c4_missing_path_isolated_witness :
    fsAllMissing "missing.txt" = none ∧
    search_files_with_regex containsF fsAllMissing true
        (["a.txt"] ++ "missing.txt" :: ["b.txt"]) "foo" =
      search_files_with_regex containsF fsAllMissing true ["a.txt"]
          "foo" ++
        ({ path := "missing.txt", matched := false,
           error := some ErrKind.fileOpenError } ::
          search_files_with_regex containsF fsAllMissing true ["b.txt"]
            "foo") :=
  ⟨rfl,
   c4_missing_path_isolated containsF fsAllMissing true "foo"
     ["a.txt"] ["b.txt"] "missing.txt" rfl⟩

/-- C1 (code divergence): "a.txt" opens successfully and holds the three
bytes [1, 2, 3], but on the schedule in which the submitted
device-to-device copy has not executed by the time the readback buffer
is mapped (nothing in the code prevents that schedule: no fence wait
exists between `ExecuteCommandLists` and `Map`),
`read_file_direct_storage` returns the readback buffer's initial zero
bytes [0, 0, 0], not the file's contents.  On the schedule in which the
copy did complete, the file's bytes are returned, confirming that the
missing fence is the sole obstruction. -/
theorem c1_roundtrip_race_divergence :
    fsThreeBytes "a.txt" = some [1, 2, 3] ∧
    (read_file_direct_storage fsThreeBytes false "a.txt").1 =
      Except.ok [0, 0, 0] ∧
    (read_file_direct_storage fsThreeBytes true "a.txt").1 =
      Except.ok [1, 2, 3] ∧
    ([0, 0, 0] : List Byte) ≠ [1, 2, 3] := by
  refine ⟨rfl, rfl, rfl, by decide⟩

/-- C2 (code divergence): no ingestion trace ever contains a fence
signal-and-wait, and on a concrete successful ingestion the trace shows
`ExecuteCommandLists` followed immediately by the null-fence `Signal`
and then `Map` — the copy submission is never awaited before the
readback buffer is mapped. -/
theorem c2_no_fence_wait_before_map :
    (∀ (fs : FileSystem) (copyDone : Bool) (p : String),
        Event.fenceWait ∉ (read_file_direct_storage fs copyDone p).2) ∧
    (read_file_direct_storage fsThreeBytes true "a.txt").2 =
      [Event.openFile "a.txt", Event.getFileSize 3,
       Event.allocBuffer HeapKind.default 3, Event.enqueueRead 3,
       Event.submitStorage, Event.waitForIdle,
       Event.allocBuffer HeapKind.readback 3, Event.resourceBarrier,
       Event.copyResource, Event.executeCommandLists,
       Event.signalNullFence, Event.mapBuffer, Event.memcpyBytes 3,
       Event.unmapBuffer] := by
  constructor
  · intro fs copyDone p
    unfold read_file_direct_storage
    cases fs p with
    | none => simp
    | some bytes =>
        by_cases h : bytes.length = 0 <;> simp [h]
  · rfl

/-- C5 (code divergence): "empty.txt" exists with size 0; the code does
not special-case size 0 — it invokes `CreateCommittedResource` with
`Width = 0` (an invalid buffer size, so allocation fails), and the
ingestion throws an allocation error instead of returning a zero-length
byte sequence. -/
theorem c5_zero_size_reaches_allocator :
    fsEmptyFile "empty.txt" = some [] ∧
    Event.allocBuffer HeapKind.default 0 ∈
      (read_file_direct_storage fsEmptyFile true "empty.txt").2 ∧
    (read_file_direct_storage fsEmptyFile true "empty.txt").1 =
      Except.error ErrKind.allocationError := by
  refine ⟨rfl, by decide, rfl⟩

/-- C6 counterexample: when `CreateCommandQueue` fails (everything
before it succeeding), `initialize_direct_storage` throws an
initialization error but leaves the globals partially set: `device` is
valid while `commandQueue` is null — after this failed initialize the
Device Context handles are neither all valid nor all invalid, refuting
the atomicity claim. -/
theorem c6_atomic_init_counterexample :
    (initialize_direct_storage envQueueFails emptyGlobals).2 =
      some ErrKind.initializationError ∧
    (initialize_direct_storage envQueueFails emptyGlobals).1.device =
      true ∧
    (initialize_direct_storage envQueueFails
        emptyGlobals).1.commandQueue = false := by
  decide

/-- C6 (amended): if any sub-step of initialization fails, the call
fails with an InitializationError and aborts the remaining steps, but
performs no rollback: starting from the all-null state, the handles
created before the failing step remain valid and the failing and later
handles remain null (the handle flags form a chain in creation order),
so the six globals are never all valid after a failure — but they may
be partially valid. -/
theorem c6_init_failure_no_rollback (env : InitEnv) (s : Globals)
    (hs : s = (initialize_direct_storage env emptyGlobals).1)
    (h : ((initialize_direct_storage env emptyGlobals).2).isSome =
      true) :
    (initialize_direct_storage env emptyGlobals).2 =
      some ErrKind.initializationError ∧
    (s.device = true → s.storageFactory = true) ∧
    (s.commandQueue = true → s.device = true) ∧
    (s.commandAllocator = true → s.commandQueue = true) ∧
    (s.commandList = true → s.commandAllocator = true) ∧
    (s.storageQueue = true → s.commandList = true) ∧
    ¬(s.storageFactory = true ∧ s.device = true ∧
      s.commandQueue = true ∧ s.commandAllocator = true ∧
      s.commandList = true ∧ s.storageQueue = true) := by
  subst hs
  revert h
  obtain ⟨a, b, c, d, e, f⟩ := env
  cases a <;> cases b <;> cases c <;> cases d <;> cases e <;> cases f
    <;> decide

/-- The globals left behind when `D3D12CreateDevice` fails: the factory
handle is valid, everything else is null. -/
def gAfterDeviceFail : Globals :=
  { storageFactory := true, storageQueue := false, device := false,
    commandQueue := false, commandAllocator := false,
    commandList := false }

/-- Witness for the amended C6 at the concrete environment in which
`D3D12CreateDevice` fails. -/
theorem c6_init_failure_no_rollback_witness :
    gAfterDeviceFail =
      (initialize_direct_storage envDeviceFails emptyGlobals).1 ∧
    ((initialize_direct_storage envDeviceFails emptyGlobals).2).isSome =
      true ∧
    ((initialize_direct_storage envDeviceFails emptyGlobals).2 =
      some ErrKind.initializationError ∧
    (gAfterDeviceFail.device = true →
      gAfterDeviceFail.storageFactory = true) ∧
    (gAfterDeviceFail.commandQueue = true →
      gAfterDeviceFail.device = true) ∧
    (gAfterDeviceFail.commandAllocator = true →
      gAfterDeviceFail.commandQueue = true) ∧
    (gAfterDeviceFail.commandList = true →
      gAfterDeviceFail.commandAllocator = true) ∧
    (gAfterDeviceFail.storageQueue = true →
      gAfterDeviceFail.commandList = true) ∧
    ¬(gAfterDeviceFail.storageFactory = true ∧
      gAfterDeviceFail.device = true ∧
      gAfterDeviceFail.commandQueue = true ∧
      gAfterDeviceFail.commandAllocator = true ∧
      gAfterDeviceFail.commandList = true ∧
      gAfterDeviceFail.storageQueue = true)) :=
  ⟨by decide, by decide,
   c6_init_failure_no_rollback envDeviceFails gAfterDeviceFail
     (by decide) (by decide)⟩

/-- C7: `XWF_Exit` is idempotent — from any global state it returns 0
and leaves every handle null, so a second call (or a call when
initialization never ran, i.e. from the all-null state) leaves the same
final state — and its release order resets each of the six handles
exactly once, with storageQueue before storageFactory and the command
queue, command allocator and command list all before the device. -/
theorem c7_exit_idempotent_release_order (g : Globals) :
    XWF_Exit g = (emptyGlobals, 0) ∧
    (XWF_Exit (XWF_Exit g).1).1 = (XWF_Exit g).1 ∧
    (XWF_Exit (XWF_Exit g).1).2 = 0 ∧
    XWF_Exit emptyGlobals = (emptyGlobals, 0) ∧
    HandleId.storageFactory ∈ xwfExitReleaseOrder ∧
    HandleId.storageQueue ∈ xwfExitReleaseOrder ∧
    HandleId.device ∈ xwfExitReleaseOrder ∧
    HandleId.commandQueue ∈ xwfExitReleaseOrder ∧
    HandleId.commandAllocator ∈ xwfExitReleaseOrder ∧
    HandleId.commandList ∈ xwfExitReleaseOrder ∧
    List.indexOf HandleId.storageQueue xwfExitReleaseOrder <
      List.indexOf HandleId.storageFactory xwfExitReleaseOrder ∧
    List.indexOf HandleId.commandQueue xwfExitReleaseOrder <
      List.indexOf HandleId.device xwfExitReleaseOrder ∧
    List.indexOf HandleId.commandAllocator xwfExitReleaseOrder <
      List.indexOf HandleId.device xwfExitReleaseOrder ∧
    List.indexOf HandleId.commandList xwfExitReleaseOrder <
      List.indexOf HandleId.device xwfExitReleaseOrder := by
  obtain ⟨a, b, c, d, e, f⟩ := g
  cases a <;> cases b <;> cases c <;> cases d <;> cases e <;> cases f
    <;> decide

/-- C8 counterexample: a scan entered before any initialization, on the
concrete list ["file1.txt"], dereferences the null storage factory (an
access violation) — the outcome is not the spec's NotInitializedError,
neither as a top-level error nor as a per-element error report. -/
theorem c8_notinitialized_counterexample :
    scan_entry false containsF fsRunFiles true ["file1.txt"] "foo" =
      ScanOutcome.nullDeref ∧
    ScanOutcome.nullDeref ≠ ScanOutcome.notInitialized ∧
    ScanOutcome.nullDeref ≠
      ScanOutcome.results
        [{ path := "file1.txt", matched := false,
           error := some ErrKind.notInitializedError }] := by
  decide

/-- C8 (amended): calling the scan path before initialization does not
fail with a NotInitializedError — the code performs no initialization
check, so on any non-empty path list the first iteration calls
`OpenFile` through the null `storageFactory` pointer: a null-pointer
dereference (access violation), not a typed error, and not a C++
exception the per-file handler could catch. -/
theorem c8_scan_before_start_nullderef
    (contains : List Byte → String → Bool) (fs : FileSystem)
    (copyDone : Bool) (file_paths : List String)
    (regex_pattern : String) (h : file_paths ≠ []) :
    scan_entry false contains fs copyDone file_paths regex_pattern =
      ScanOutcome.nullDeref := by
  cases file_paths with
  | nil => exact absurd rfl h
  | cons p ps => rfl

/-- Witness for the amended C8 at a concrete non-empty path list. -/
theorem c8_scan_before_start_nullderef_witness :
    (["a.txt", "b.txt"] : List String) ≠ [] ∧
    scan_entry false containsF fsAllMissing true ["a.txt", "b.txt"]
        "x" = ScanOutcome.nullDeref :=
  ⟨by decide,
   c8_scan_before_start_nullderef containsF fsAllMissing true
     ["a.txt", "b.txt"] "x" (by decide)⟩

/-- C9: whenever initialization succeeds, the results produced by
`XWF_Run` are exactly those of scanning the hard-coded list
["file1.txt", "file2.txt", "file3.txt"] with the hard-coded pattern
"your-regex-pattern" — `XWF_Run` takes no caller-supplied file list or
pattern at all. -/
theorem c9_fixed_paths_and_pattern (env : InitEnv)
    (contains : List Byte → String → Bool) (fs : FileSystem)
    (copyDone : Bool) (g : Globals)
    (h : (initialize_direct_storage env g).2 = none) :
    (XWF_Run env contains fs copyDone g).2.2 =
      search_files_with_regex contains fs copyDone
        ["file1.txt", "file2.txt", "file3.txt"]
        "your-regex-pattern" := by
  rcases hI : initialize_direct_storage env g with ⟨g1, e⟩
  rw [hI] at h
  have he : e = none := h
  subst he
  unfold XWF_Run
  rw [hI]

/-- Witness for C9 with every creation call succeeding and the three
hard-coded files present. -/
theorem c9_fixed_paths_and_pattern_witness :
    (initialize_direct_storage envAllOk emptyGlobals).2 = none ∧
    (XWF_Run envAllOk containsF fsRunFiles true emptyGlobals).2.2 =
      search_files_with_regex containsF fsRunFiles true
        ["file1.txt", "file2.txt", "file3.txt"]
        "your-regex-pattern" :=
  ⟨rfl,
   c9_fixed_paths_and_pattern envAllOk containsF fsRunFiles true
     emptyGlobals rfl⟩

/-- C10: `XWF_Run` returns 1 exactly when initialization fails (the
only exception that can escape its try block), and returns 0 exactly
when initialization succeeds — regardless of the file system, so in
particular it returns 0 even when every file in the hard-coded list
fails, those failures being caught inside the batch loop. -/
theorem c10_return_code_iff_init_failure (env : InitEnv)
    (contains : List Byte → String → Bool) (fs : FileSystem)
    (copyDone : Bool) (g : Globals) :
    ((XWF_Run env contains fs copyDone g).1 = 1 ↔
      ((initialize_direct_storage env g).2).isSome = true) ∧
    ((XWF_Run env contains fs copyDone g).1 = 0 ↔
      (initialize_direct_storage env g).2 = none) := by
  rcases hI : initialize_direct_storage env g with ⟨g1, e⟩
  cases e with
  | none =>
      unfold XWF_Run
      rw [hI]
      simp
  | some err =>
      unfold XWF_Run
      rw [hI]
      simp
